import Mathlib

/-!
# Consumer scheduler of the notification service (NSConsumerScheduler.c)

A shallow embedding of `NSConsumerScheduler.c`.

* Heap objects are named by their (non-null) address, a natural number; a C
  pointer is an `Option` of an address, `none` being `NULL`.
* Every call that leaves the file (downstream processors, directory removal,
  `NSOICFree`, locks, ...) is recorded, with its arguments, as an `Effect`;
  a function of the file returns the list of effects in program order.
* Everything an external call returns (directory lookups, copies,
  allocations, sub-initialisations, thread creation) is read from an `Env`,
  so a statement quantified over `Env` covers every outcome.
* Logging (`NS_LOG`, `NS_LOG_V`) has no effect on the scheduler and is left out.
-/

namespace NSConsumerScheduler

/-- A non-null address. -/
abbrev Ptr := Nat

/-- Task kinds of `NSTaskType` that the consumer scheduler switches on; any
other value of the enumeration is `OTHER code`. -/
inductive NSTaskType where
  | TASK_EVENT_CONNECTED
  | TASK_EVENT_CONNECTED_TCP
  | TASK_CONSUMER_REQ_DISCOVER
  | TASK_CONSUMER_REQ_SUBSCRIBE
  | TASK_SEND_SYNCINFO
  | TASK_CONSUMER_REQ_TOPIC_LIST
  | TASK_CONSUMER_SELECT_TOPIC_LIST
  | TASK_CONSUMER_REQ_SUBSCRIBE_CANCEL
  | TASK_CONSUMER_PROVIDER_DELETED
  | TASK_RECV_SYNCINFO
  | TASK_CONSUMER_RECV_MESSAGE
  | TASK_CONSUMER_SENT_REQ_OBSERVE
  | TASK_CONSUMER_RECV_PROVIDER_CHANGED
  | TASK_MAKE_SYNCINFO
  | TASK_CONSUMER_REQ_TOPIC_URI
  | TASK_CONSUMER_RECV_TOPIC_LIST
  | TASK_CONSUMER_PROVIDER_DISCOVERED
  | TASK_MQ_REQ_SUBSCRIBE
  | OTHER (code : Nat)
  deriving DecidableEq, Repr

/-- The struct `NSTask` living at address `addr`: its kind and its payload
pointer `taskData` (a `void *`, possibly `NULL`). The `nextTask` link is never
read by the scheduler. -/
structure NSTask where
  addr : Ptr
  taskType : NSTaskType
  taskData : Option Ptr
  deriving DecidableEq, Repr

/-- Result codes; the scheduler only produces and tests `NS_OK` and `NS_ERROR`. -/
inductive NSResult where
  | NS_OK
  | NS_ERROR
  | OTHER (code : Nat)
  deriving DecidableEq, Repr

/-- The struct `NSConsumerThread` at address `addr`; `isStarted` is cleared when
the worker is told to stop. -/
structure NSConsumerThread where
  addr : Ptr
  isStarted : Bool
  deriving DecidableEq, Repr

/-- The struct `NSConsumerQueueObject` at address `addr`, whose `data` points to a task. -/
structure NSConsumerQueueObject where
  addr : Ptr
  data : Option NSTask
  deriving DecidableEq, Repr

/-- Modelled from the spec: the queue `NSConsumerQueue` (NSConsumerQueue.c is
absent) is a FIFO of nodes; `objs` lists the nodes it holds, oldest first. -/
structure NSConsumerQueue where
  addr : Ptr
  objs : List NSConsumerQueueObject
  deriving DecidableEq, Repr

/-- The two thread bodies handed to `NSThreadInit`. -/
inductive ThreadFunc where
  | NSConsumerMsgHandleThreadFunc
  | NSConsumerMsgPushThreadFunc
  deriving DecidableEq, Repr

/-- A call leaving the file, with its arguments. `pthread_mutex_lock` and
`pthread_mutex_unlock` are on `g_start_mutex`. `NSConsumerTaskProcessing` marks
an invocation of the dispatch by one of the two loops; the effects of that
invocation follow it. -/
inductive Effect where
  | pthread_mutex_lock
  | pthread_mutex_unlock
  | NSThreadLock (handle : Option NSConsumerThread)
  | NSThreadUnlock (handle : Option NSConsumerThread)
  | NSThreadStop (handle : Option NSConsumerThread)
  | NSDestroyThreadHandle (handle : Option NSConsumerThread)
  | NSSetConsumerId (uuid : String)
  | NSConsumerListenerTermiate
  | NSCancelAllSubscription
  | NSDestroyInternalCachedList
  | NSDestroyQueue (queue : Option NSConsumerQueue)
  | usleep (usec : Nat)
  | NSConsumerTaskProcessing (task : Option NSTask)
  | NSConsumerDiscoveryTaskProcessing (task : Option NSTask)
  | NSConsumerCommunicationTaskProcessing (task : Option NSTask)
  | NSConsumerInternalTaskProcessing (task : Option NSTask)
  | NSConsumerMQTaskProcessing (task : Option NSTask)
  | NSRemoveProvider (prov : Option Ptr)
  | NSRemoveProvider_internal (prov : Option Ptr)
  | NSOICFree (obj : Option Ptr)
  deriving DecidableEq, Repr

abbrev Trace := List Effect

/-- What the external collaborators answer.

* `WITH_MQ`: whether the file is compiled with `WITH_MQ` defined.
* `providerId p`: the value of `((NSProvider *) p)->providerId` (a `const char *`,
  `none` being `NULL`); the struct `NSProvider` is declared outside the file.
* `NSProviderCacheFind`, `NSFindProviderFromAddr`, `NSCopyProvider_internal`:
  the provider directory.
* `alloc k`: the address returned by the `k`-th allocation (`OICMalloc`, or the
  one inside `NSMakeTask`) of the current call, `none` when it fails.
* the remaining fields are the sub-initialisations of `NSConsumerMessageHandlerInit`
  and thread creation. -/
structure Env where
  WITH_MQ : Bool
  providerId : Option Ptr → Option String
  NSProviderCacheFind : String → Option Ptr
  NSFindProviderFromAddr : Option Ptr → Option Ptr
  NSCopyProvider_internal : Option Ptr → Option Ptr
  alloc : Nat → Option Ptr
  OCGetServerInstanceIDString : Option String
  NSConsumerListenerInit : NSResult
  NSConsumerSystemInit : NSResult
  NSCreateQueue : Option NSConsumerQueue
  NSThreadInit : ThreadFunc → Option NSConsumerThread

/-- The file-scope variables `g_handle` and `g_queue`. -/
structure State where
  g_handle : Option NSConsumerThread
  g_queue : Option NSConsumerQueue
  deriving DecidableEq, Repr

/-- Modelled from the spec: `NSMakeTask` (NSConsumerCommon.c is absent) builds a
derived task of the given kind carrying the given record, at the address the
allocation returned, and yields `NULL` when the allocation fails. -/
def NSMakeTask (alloc : Option Ptr) (type : NSTaskType) (data : Option Ptr) : Option NSTask :=
  alloc.map fun a => { addr := a, taskType := type, taskData := data }

/-- Modelled from the spec: `is-empty() → bool` of the queue. -/
def NSIsQueueEmpty (queue : NSConsumerQueue) : Bool :=
  queue.objs.isEmpty

/-- Modelled from the spec: `pop() → node-or-empty` of the queue; the oldest
node leaves the queue. -/
def NSPopQueue (queue : NSConsumerQueue) : Option NSConsumerQueueObject × NSConsumerQueue :=
  match queue.objs with
  | [] => (none, queue)
  | obj :: rest => (some obj, { queue with objs := rest })

/-- Modelled from the spec: `push(node)` of the queue; the node becomes the newest. -/
def NSPushConsumerQueue (queue : NSConsumerQueue) (obj : NSConsumerQueueObject) :
    NSConsumerQueue :=
  { queue with objs := queue.objs ++ [obj] }

/-- The macros `NS_VERIFY_NOT_NULL_WITH_POST_CLEANING_V(obj, func)` and
`NS_VERIFY_NOT_NULL_V(obj)` (with `func` empty): when `obj` is `NULL` the
function runs `func` and returns, otherwise it goes on with `rest`. -/
def verifyNotNullV {α : Type} (obj : Option α) (func : Trace) (rest : α → Trace) : Trace :=
  match obj with
  | none => func
  | some x => rest x

/-- The function `NSConsumerFindNSProvider` (lines 387-392). -/
def NSConsumerFindNSProvider (env : Env) (providerId : Option String) : Option Ptr :=
  match providerId with
  | none => none
  | some id => env.NSProviderCacheFind id

/-- The function `NSProviderDeletedPostClean` (lines 251-276). -/
def NSProviderDeletedPostClean (task : Option NSTask) (prov1 prov2 : Option Ptr) : Trace :=
  (match task with
    | none => []
    | some t =>
      if t.taskData.isSome then
        (if t.taskType = NSTaskType.TASK_CONSUMER_REQ_SUBSCRIBE_CANCEL then
          [Effect.NSRemoveProvider t.taskData]
        else if t.taskType = NSTaskType.TASK_CONSUMER_PROVIDER_DELETED then
          [Effect.NSOICFree t.taskData]
        else [])
        ++ [Effect.NSOICFree (some t.addr)]
      else [])
  ++ (match prov1 with
    | none => []
    | some p => [Effect.NSRemoveProvider_internal (some p)])
  ++ (match prov2 with
    | none => []
    | some p => [Effect.NSRemoveProvider_internal (some p)])

/-- The function `NSConsumerTaskProcessing` (lines 278-385), the dispatch. -/
def NSConsumerTaskProcessing (env : Env) (task : Option NSTask) : Trace :=
  verifyNotNullV task [] fun t =>
  match t.taskType with
  | .TASK_EVENT_CONNECTED
  | .TASK_EVENT_CONNECTED_TCP
  | .TASK_CONSUMER_REQ_DISCOVER =>
    [Effect.NSConsumerDiscoveryTaskProcessing (some t)]
  | .TASK_CONSUMER_REQ_SUBSCRIBE =>
    let prov := NSConsumerFindNSProvider env (env.providerId t.taskData)
    verifyNotNullV prov [] fun p =>
    let subTask := NSMakeTask (env.alloc 0) .TASK_CONSUMER_REQ_SUBSCRIBE (some p)
    verifyNotNullV subTask [] fun st =>
    [Effect.NSConsumerCommunicationTaskProcessing (some st),
     Effect.NSRemoveProvider t.taskData,
     Effect.NSOICFree (some t.addr)]
  | .TASK_SEND_SYNCINFO
  | .TASK_CONSUMER_REQ_TOPIC_LIST
  | .TASK_CONSUMER_SELECT_TOPIC_LIST =>
    [Effect.NSConsumerCommunicationTaskProcessing (some t)]
  | .TASK_CONSUMER_REQ_SUBSCRIBE_CANCEL
  | .TASK_CONSUMER_PROVIDER_DELETED =>
    let data :=
      if t.taskType = .TASK_CONSUMER_REQ_SUBSCRIBE_CANCEL then
        NSConsumerFindNSProvider env (env.providerId t.taskData)
      else
        env.NSFindProviderFromAddr t.taskData
    verifyNotNullV data (NSProviderDeletedPostClean (some t) none none) fun d =>
    let data2 := env.NSCopyProvider_internal (some d)
    verifyNotNullV data2 (NSProviderDeletedPostClean (some t) (some d) none) fun d2 =>
    let conTask := NSMakeTask (env.alloc 0) .TASK_CONSUMER_REQ_SUBSCRIBE_CANCEL (some d)
    verifyNotNullV conTask (NSProviderDeletedPostClean (some t) (some d) (some d2)) fun _ =>
    [Effect.NSConsumerCommunicationTaskProcessing conTask] ++
    let conTask2 := NSMakeTask (env.alloc 1) .TASK_CONSUMER_REQ_SUBSCRIBE_CANCEL (some d2)
    -- line 338 tests `conTask`, not `conTask2`
    verifyNotNullV conTask (NSProviderDeletedPostClean (some t) none (some d2)) fun _ =>
    [Effect.NSConsumerInternalTaskProcessing conTask2] ++
    NSProviderDeletedPostClean (some t) none none
  | .TASK_RECV_SYNCINFO
  | .TASK_CONSUMER_RECV_MESSAGE
  | .TASK_CONSUMER_SENT_REQ_OBSERVE
  | .TASK_CONSUMER_RECV_PROVIDER_CHANGED
  | .TASK_MAKE_SYNCINFO
  | .TASK_CONSUMER_REQ_TOPIC_URI
  | .TASK_CONSUMER_RECV_TOPIC_LIST =>
    [Effect.NSConsumerInternalTaskProcessing (some t)]
  | .TASK_CONSUMER_PROVIDER_DISCOVERED =>
    verifyNotNullV (env.alloc 0)
      [Effect.NSRemoveProvider_internal t.taskData, Effect.NSOICFree (some t.addr)]
      fun a =>
    let getTopicTask : NSTask :=
      { addr := a
        taskData := env.NSCopyProvider_internal t.taskData
        taskType := .TASK_CONSUMER_REQ_TOPIC_LIST }
    [Effect.NSConsumerCommunicationTaskProcessing (some getTopicTask),
     Effect.NSConsumerInternalTaskProcessing (some t)]
  | .TASK_MQ_REQ_SUBSCRIBE =>
    if env.WITH_MQ then [Effect.NSConsumerMQTaskProcessing (some t)] else []
  | .OTHER _ => []

/-- The function `NSConsumerMessageHandlerInit` (lines 60-101): the result, the
file-scope variables on return and the calls made. -/
def NSConsumerMessageHandlerInit (env : Env) (s : State) : NSResult × State × Trace :=
  match env.OCGetServerInstanceIDString with
  | none => (.NS_ERROR, s, [.pthread_mutex_lock, .pthread_mutex_unlock])
  | some consumerUuid =>
    if env.NSConsumerListenerInit ≠ .NS_OK then
      (.NS_ERROR, s,
        [.pthread_mutex_lock, .NSSetConsumerId consumerUuid, .pthread_mutex_unlock])
    else if env.NSConsumerSystemInit ≠ .NS_OK then
      (.NS_ERROR, s,
        [.pthread_mutex_lock, .NSSetConsumerId consumerUuid, .pthread_mutex_unlock])
    else
      match env.NSCreateQueue with
      | none =>
        (.NS_ERROR, s,
          [.pthread_mutex_lock, .NSSetConsumerId consumerUuid, .pthread_mutex_unlock])
      | some queue =>
        let s1 : State := { s with g_queue := some queue }
        match env.NSThreadInit .NSConsumerMsgHandleThreadFunc with
        | none =>
          (.NS_ERROR, s1,
            [.pthread_mutex_lock, .NSSetConsumerId consumerUuid, .pthread_mutex_unlock])
        | some handle =>
          (.NS_OK, { s1 with g_handle := some handle },
            [.pthread_mutex_lock, .NSSetConsumerId consumerUuid, .pthread_mutex_unlock])

/-- The function `NSConsumerMsgPushThreadFunc` (lines 207-249), the body of the
ingestion helper; `data` is the task handed to `NSConsumerPushEvent`. -/
def NSConsumerMsgPushThreadFunc (env : Env) (s : State) (data : Option NSTask) :
    State × Trace :=
  match s.g_handle with
  | none =>
    (s, [.pthread_mutex_lock, .NSOICFree (data.map NSTask.addr), .pthread_mutex_unlock])
  | some h =>
    match env.alloc 0 with
    | none =>
      (s, [.pthread_mutex_lock, .NSThreadLock (some h), .NSThreadUnlock (some h),
           .pthread_mutex_unlock, .NSOICFree (data.map NSTask.addr)])
    | some a =>
      let obj : NSConsumerQueueObject := { addr := a, data := data }
      match s.g_queue with
      | none =>
        (s, [.pthread_mutex_lock, .NSThreadLock (some h),
             .NSOICFree (data.map NSTask.addr), .NSOICFree (some obj.addr),
             .NSThreadUnlock (some h), .pthread_mutex_unlock])
      | some q =>
        ({ s with g_queue := some (NSPushConsumerQueue q obj) },
          [.pthread_mutex_lock, .NSThreadLock (some h),
           .NSThreadUnlock (some h), .pthread_mutex_unlock])

/-- The function `NSConsumerPushEvent` (lines 103-112). The spawned helper runs
on its own thread; its whole body is serialised by `g_start_mutex`, and here it
runs as soon as it is spawned. -/
def NSConsumerPushEvent (env : Env) (s : State) (task : Option NSTask) :
    NSResult × State × Trace :=
  match env.NSThreadInit .NSConsumerMsgPushThreadFunc with
  | none => (.NS_ERROR, s, [])
  | some thread =>
    let r := NSConsumerMsgPushThreadFunc env s task
    (.NS_OK, r.1, r.2 ++ [.NSDestroyThreadHandle (some thread), .NSOICFree (some thread.addr)])

/-- The drain loop of `NSConsumerMessageHandlerExit` (lines 123-132). Every test
of the loop condition uses one unit of `fuel`; `none` means the fuel ran out.
`envs k` answers the external calls of the dispatch of the `k`-th popped task. -/
def drainLoop (envs : Nat → Env) : Nat → Nat → NSConsumerQueue → Option (NSConsumerQueue × Trace)
  | 0, _, _ => none
  | fuel + 1, k, queue =>
    if !NSIsQueueEmpty queue then
      match NSPopQueue queue with
      | (some obj, queue1) =>
        (drainLoop envs fuel (k + 1) queue1).map fun r =>
          (r.1, [Effect.NSConsumerTaskProcessing obj.data]
                  ++ NSConsumerTaskProcessing (envs k) obj.data
                  ++ [Effect.NSOICFree (some obj.addr)] ++ r.2)
      | (none, queue1) => drainLoop envs fuel k queue1
    else
      some (queue, [])

/-- The function `NSConsumerMessageHandlerExit` (lines 114-145). The queue
operations are specified for an existing queue only: on a state without queue
the result is `none`, as it is when `fuel` runs out inside the drain loop. -/
def NSConsumerMessageHandlerExit (envs : Nat → Env) (fuel : Nat) (s : State) :
    Option (State × Trace) :=
  match s.g_queue with
  | none => none
  | some queue =>
    (drainLoop envs fuel 0 queue).map fun r =>
      ({ g_handle := none, g_queue := none },
        [.pthread_mutex_lock, .NSConsumerListenerTermiate, .NSCancelAllSubscription,
         .NSThreadLock s.g_handle]
        ++ r.2
        ++ [.NSDestroyQueue (some r.1), .NSOICFree (some r.1.addr),
            .NSThreadUnlock s.g_handle, .NSThreadStop s.g_handle,
            .NSOICFree (s.g_handle.map NSConsumerThread.addr),
            .NSDestroyInternalCachedList, .pthread_mutex_unlock])

/-- How an iteration of `while (true)` ends: `leave` is `break`, `again` covers
both `continue` and falling off the end of the body. -/
inductive LoopCtl where
  | leave
  | again
  deriving DecidableEq, Repr

/-- One iteration of the loop of `NSConsumerMsgHandleThreadFunc` (lines 157-199). -/
def workerIteration (env : Env) (s : State) : LoopCtl × State × Trace :=
  match s.g_handle with
  | none => (.leave, s, [.pthread_mutex_lock, .pthread_mutex_unlock])
  | some h =>
    match s.g_queue with
    | none =>
      (.again, s, [.pthread_mutex_lock, .NSThreadLock (some h), .NSThreadUnlock (some h),
                   .pthread_mutex_unlock, .usleep 2000])
    | some queue =>
      if !h.isStarted && NSIsQueueEmpty queue then
        (.leave, s, [.pthread_mutex_lock, .NSThreadLock (some h), .NSThreadUnlock (some h),
                     .pthread_mutex_unlock])
      else if NSIsQueueEmpty queue then
        (.again, s, [.pthread_mutex_lock, .NSThreadLock (some h), .NSThreadUnlock (some h),
                     .pthread_mutex_unlock, .usleep 2000])
      else
        match NSPopQueue queue with
        | (some obj, queue1) =>
          (.again, { s with g_queue := some queue1 },
            [.pthread_mutex_lock, .NSThreadLock (some h),
             .NSConsumerTaskProcessing obj.data]
            ++ NSConsumerTaskProcessing env obj.data
            ++ [.NSOICFree (some obj.addr), .NSThreadUnlock (some h), .pthread_mutex_unlock])
        | (none, queue1) =>
          (.again, { s with g_queue := some queue1 },
            [.pthread_mutex_lock, .NSThreadLock (some h),
             .NSThreadUnlock (some h), .pthread_mutex_unlock])

/-- The loop of `NSConsumerMsgHandleThreadFunc` (lines 155-201) run on its own,
no other thread changing the state between iterations: `fuel` bounds the number
of iterations, `none` means the loop is still running when the fuel is spent.
`envs k` answers the external calls of the `k`-th iteration. -/
def workerLoop (envs : Nat → Env) : Nat → Nat → State → Option (State × Trace)
  | 0, _, _ => none
  | fuel + 1, k, s =>
    match workerIteration (envs k) s with
    | (.leave, s1, tr) => some (s1, tr)
    | (.again, s1, tr) => (workerLoop envs fuel (k + 1) s1).map fun r => (r.1, tr ++ r.2)

/-- The function `NSConsumerMsgHandleThreadFunc` (lines 147-204): it returns at
once when `g_handle` is `NULL`, and runs the loop otherwise. -/
def NSConsumerMsgHandleThreadFunc (envs : Nat → Env) (fuel : Nat) (s : State) :
    Option (State × Trace) :=
  match s.g_handle with
  | none => some (s, [])
  | some _ => workerLoop envs fuel 0 s

/-! ### Observations on a trace -/

/-- Whether `g_start_mutex` is held after the calls of the trace, given whether
it was held before. -/
def startMutexHeld (held : Bool) (tr : Trace) : Bool :=
  tr.foldl (fun b e =>
    match e with
    | .pthread_mutex_lock => true
    | .pthread_mutex_unlock => false
    | _ => b) held

/-- Whether the lock of a worker handle is held after the calls of the trace. -/
def threadLockHeld (held : Bool) (tr : Trace) : Bool :=
  tr.foldl (fun b e =>
    match e with
    | .NSThreadLock _ => true
    | .NSThreadUnlock _ => false
    | _ => b) held

/-- The tasks on which the loops invoked the dispatch, in order. -/
def dispatched (tr : Trace) : List (Option NSTask) :=
  tr.filterMap fun e =>
    match e with
    | .NSConsumerTaskProcessing t => some t
    | _ => none

/-- Whether the call hands a task to a downstream processor. -/
def isForward : Effect → Bool
  | .NSConsumerDiscoveryTaskProcessing _ => true
  | .NSConsumerCommunicationTaskProcessing _ => true
  | .NSConsumerInternalTaskProcessing _ => true
  | .NSConsumerMQTaskProcessing _ => true
  | _ => false

/-- Whether the call releases memory or a provider record. -/
def isRelease : Effect → Bool
  | .NSRemoveProvider _ => true
  | .NSRemoveProvider_internal _ => true
  | .NSOICFree _ => true
  | _ => false

/-- The downstream calls of a trace. -/
def forwards (tr : Trace) : Trace := tr.filter isForward

/-- The releasing calls of a trace. -/
def releases (tr : Trace) : Trace := tr.filter isRelease

/-- Whether the call disposes of the object at address `p`: it frees or removes
it, or hands a task at that address, or a task carrying it, downstream. -/
def disposesOf (p : Ptr) : Effect → Bool
  | .NSRemoveProvider q => q == some p
  | .NSRemoveProvider_internal q => q == some p
  | .NSOICFree q => q == some p
  | .NSConsumerDiscoveryTaskProcessing t => t.any fun x => x.addr == p || x.taskData == some p
  | .NSConsumerCommunicationTaskProcessing t => t.any fun x => x.addr == p || x.taskData == some p
  | .NSConsumerInternalTaskProcessing t => t.any fun x => x.addr == p || x.taskData == some p
  | .NSConsumerMQTaskProcessing t => t.any fun x => x.addr == p || x.taskData == some p
  | _ => false

/-- How many calls of the trace dispose of the object at address `p`. -/
def disposals (p : Ptr) (tr : Trace) : Nat := tr.countP (disposesOf p)

/-! ### Concrete inputs -/

/-- A directory that knows no provider, and an allocator out of memory; the
sub-initialisations succeed up to the queue and the worker cannot be spawned. -/
def missEnv : Env where
  WITH_MQ := false
  providerId := fun p => p.map fun _ => "X"
  NSProviderCacheFind := fun _ => none
  NSFindProviderFromAddr := fun _ => none
  NSCopyProvider_internal := fun _ => none
  alloc := fun _ => none
  OCGetServerInstanceIDString := some "uuid"
  NSConsumerListenerInit := .NS_OK
  NSConsumerSystemInit := .NS_OK
  NSCreateQueue := some { addr := 100, objs := [] }
  NSThreadInit := fun _ => none

/-- A directory that resolves every id and address to the record at 30 and
copies to 31; allocations return 40, 41, ...; threads can be spawned. -/
def hitEnv : Env where
  WITH_MQ := false
  providerId := fun p => p.map fun _ => "X"
  NSProviderCacheFind := fun _ => some 30
  NSFindProviderFromAddr := fun _ => some 30
  NSCopyProvider_internal := fun _ => some 31
  alloc := fun k => some (40 + k)
  OCGetServerInstanceIDString := some "uuid"
  NSConsumerListenerInit := .NS_OK
  NSConsumerSystemInit := .NS_OK
  NSCreateQueue := some { addr := 100, objs := [] }
  NSThreadInit := fun _ => some { addr := 1, isStarted := true }

/-- As `hitEnv`, but only the first allocation of a call succeeds. -/
def secondAllocFailsEnv : Env :=
  { hitEnv with alloc := fun k => if k = 0 then some 40 else none }

/-- A subscribe-request task at address 10 with its payload at 20. -/
def subscribeTask : NSTask :=
  { addr := 10, taskType := .TASK_CONSUMER_REQ_SUBSCRIBE, taskData := some 20 }

/-- A subscribe-cancel task at address 10 with its payload at 20. -/
def cancelTask : NSTask :=
  { addr := 10, taskType := .TASK_CONSUMER_REQ_SUBSCRIBE_CANCEL, taskData := some 20 }

/-- A provider-deleted task at address 11 with its address record at 21. -/
def deletedTask : NSTask :=
  { addr := 11, taskType := .TASK_CONSUMER_PROVIDER_DELETED, taskData := some 21 }

/-- A provider-discovered task at address 12 with its provider record at 22. -/
def discoveredTask : NSTask :=
  { addr := 12, taskType := .TASK_CONSUMER_PROVIDER_DISCOVERED, taskData := some 22 }

/-- A receive-message task at address 13 with its payload at 23. -/
def messageTask : NSTask :=
  { addr := 13, taskType := .TASK_CONSUMER_RECV_MESSAGE, taskData := some 23 }

/-- A running worker handle. -/
def runningHandle : NSConsumerThread := { addr := 1, isStarted := true }

/-- A queue holding `messageTask` then `cancelTask`. -/
def twoTaskQueue : NSConsumerQueue :=
  { addr := 100
    objs := [{ addr := 50, data := some messageTask }, { addr := 51, data := some cancelTask }] }

/-- The state after a successful start, with two queued tasks. -/
def startedState : State := { g_handle := some runningHandle, g_queue := some twoTaskQueue }

/-- The state before any start and after a stop. -/
def stoppedState : State := { g_handle := none, g_queue := none }

/-! ### Traces -/

theorem dispatched_append (tr1 tr2 : Trace) :
    dispatched (tr1 ++ tr2) = dispatched tr1 ++ dispatched tr2 := by
  simp [dispatched, List.filterMap_append]

theorem startMutexHeld_append (b : Bool) (tr1 tr2 : Trace) :
    startMutexHeld b (tr1 ++ tr2) = startMutexHeld (startMutexHeld b tr1) tr2 := by
  simp [startMutexHeld, List.foldl_append]

theorem threadLockHeld_append (b : Bool) (tr1 tr2 : Trace) :
    threadLockHeld b (tr1 ++ tr2) = threadLockHeld (threadLockHeld b tr1) tr2 := by
  simp [threadLockHeld, List.foldl_append]

/-- A trace of forwards and releases invokes no dispatch and touches no lock. -/
theorem quiet_of_forward_or_release (tr : Trace)
    (h : ∀ e ∈ tr, isForward e = true ∨ isRelease e = true) :
    dispatched tr = []
    ∧ (∀ b, startMutexHeld b tr = b) ∧ (∀ b, threadLockHeld b tr = b) := by
  induction tr with
  | nil => simp [dispatched, startMutexHeld, threadLockHeld]
  | cons e rest ih =>
    have he := h e (List.mem_cons_self _ _)
    obtain ⟨ih1, ih2, ih3⟩ := ih (fun x hx => h x (List.mem_cons_of_mem _ hx))
    simp only [dispatched, startMutexHeld, threadLockHeld] at ih1 ih2 ih3
    cases e <;> simp [isForward, isRelease] at he <;>
      simp [dispatched, startMutexHeld, threadLockHeld, ih1, ih2, ih3]

/-! ### The dispatch -/

/-- Every call made by the dispatch is a downstream forward or a release. -/
theorem dispatch_forward_or_release (env : Env) (task : Option NSTask) :
    ∀ e ∈ NSConsumerTaskProcessing env task, isForward e = true ∨ isRelease e = true := by
  cases task with
  | none => simp [NSConsumerTaskProcessing, verifyNotNullV]
  | some t =>
    obtain ⟨a, ty, d⟩ := t
    cases ty <;>
      simp only [NSConsumerTaskProcessing, verifyNotNullV, NSProviderDeletedPostClean,
        NSMakeTask] <;>
      (repeat' split) <;> simp_all [isForward, isRelease]

/-- C8: a task of a pass-through kind is forwarded once, unmodified, to the
processor of its group (Discovery, Communication or Internal Task) and nothing
is released; a task of a kind outside all routing groups produces no call. -/
theorem C8_pass_through_routing (env : Env) (t : NSTask) :
    (t.taskType ∈ [NSTaskType.TASK_EVENT_CONNECTED, .TASK_EVENT_CONNECTED_TCP,
        .TASK_CONSUMER_REQ_DISCOVER] →
      NSConsumerTaskProcessing env (some t)
        = [Effect.NSConsumerDiscoveryTaskProcessing (some t)])
    ∧ (t.taskType ∈ [NSTaskType.TASK_SEND_SYNCINFO, .TASK_CONSUMER_REQ_TOPIC_LIST,
        .TASK_CONSUMER_SELECT_TOPIC_LIST] →
      NSConsumerTaskProcessing env (some t)
        = [Effect.NSConsumerCommunicationTaskProcessing (some t)])
    ∧ (t.taskType ∈ [NSTaskType.TASK_CONSUMER_RECV_MESSAGE, .TASK_CONSUMER_SENT_REQ_OBSERVE,
        .TASK_CONSUMER_RECV_PROVIDER_CHANGED, .TASK_RECV_SYNCINFO, .TASK_MAKE_SYNCINFO,
        .TASK_CONSUMER_REQ_TOPIC_URI, .TASK_CONSUMER_RECV_TOPIC_LIST] →
      NSConsumerTaskProcessing env (some t)
        = [Effect.NSConsumerInternalTaskProcessing (some t)])
    ∧ ((∃ code, t.taskType = .OTHER code)
        ∨ (t.taskType = .TASK_MQ_REQ_SUBSCRIBE ∧ env.WITH_MQ = false) →
      NSConsumerTaskProcessing env (some t) = []) := by
  obtain ⟨a, ty, d⟩ := t
  refine ⟨?_, ?_, ?_, ?_⟩
  · intro h
    simp only [List.mem_cons, List.mem_singleton, List.not_mem_nil, or_false] at h
    rcases h with h | h | h <;> subst h <;> rfl
  · intro h
    simp only [List.mem_cons, List.mem_singleton, List.not_mem_nil, or_false] at h
    rcases h with h | h | h <;> subst h <;> rfl
  · intro h
    simp only [List.mem_cons, List.mem_singleton, List.not_mem_nil, or_false] at h
    rcases h with h | h | h | h | h | h | h <;> subst h <;> rfl
  · rintro (⟨code, h⟩ | ⟨h, hmq⟩)
    · subst h; rfl
    · subst h; simp [NSConsumerTaskProcessing, verifyNotNullV, hmq]

/-- C8 at a receive-message task: one forward to the Internal Task processor. -/
theorem C8_pass_through_routing_witness :
    messageTask.taskType ∈ [NSTaskType.TASK_CONSUMER_RECV_MESSAGE,
        .TASK_CONSUMER_SENT_REQ_OBSERVE, .TASK_CONSUMER_RECV_PROVIDER_CHANGED,
        .TASK_RECV_SYNCINFO, .TASK_MAKE_SYNCINFO, .TASK_CONSUMER_REQ_TOPIC_URI,
        .TASK_CONSUMER_RECV_TOPIC_LIST]
    ∧ NSConsumerTaskProcessing missEnv (some messageTask)
        = [Effect.NSConsumerInternalTaskProcessing (some messageTask)] :=
  ⟨by decide, (C8_pass_through_routing missEnv messageTask).2.2.1 (by decide)⟩

/-- C5: for a provider-discovered task whose new task is allocated (at `a`), the
dispatch makes exactly two calls, both forwards: first a new topic-list-request
task carrying what the copy of the task's provider record returned, to the
Communication processor, then the original task, unchanged, to the Internal
Task processor. Nothing is released. -/
theorem C5_provider_discovered_fan_out (env : Env) (t : NSTask) (a : Ptr)
    (hk : t.taskType = .TASK_CONSUMER_PROVIDER_DISCOVERED)
    (halloc : env.alloc 0 = some a) :
    NSConsumerTaskProcessing env (some t)
      = [Effect.NSConsumerCommunicationTaskProcessing
           (some { addr := a, taskType := .TASK_CONSUMER_REQ_TOPIC_LIST,
                   taskData := env.NSCopyProvider_internal t.taskData }),
         Effect.NSConsumerInternalTaskProcessing (some t)]
    ∧ (forwards (NSConsumerTaskProcessing env (some t))).length = 2
    ∧ releases (NSConsumerTaskProcessing env (some t)) = [] := by
  obtain ⟨ta, ty, d⟩ := t
  simp only at hk
  subst hk
  simp [NSConsumerTaskProcessing, verifyNotNullV, halloc, forwards, releases, isForward,
    isRelease]

/-- C5 at the provider-discovered task at 12: the new task at 40 carries the copy 31. -/
theorem C5_provider_discovered_fan_out_witness :
    discoveredTask.taskType = .TASK_CONSUMER_PROVIDER_DISCOVERED
    ∧ hitEnv.alloc 0 = some 40
    ∧ NSConsumerTaskProcessing hitEnv (some discoveredTask)
      = [Effect.NSConsumerCommunicationTaskProcessing
           (some { addr := 40, taskType := .TASK_CONSUMER_REQ_TOPIC_LIST, taskData := some 31 }),
         Effect.NSConsumerInternalTaskProcessing (some discoveredTask)] :=
  ⟨rfl, rfl, (C5_provider_discovered_fan_out hitEnv discoveredTask 40 rfl rfl).1⟩

/-- C4: for a subscribe-cancel task whose provider id resolves, or a
provider-deleted task whose address resolves, to the record `d`, when the copy
(`d2`) and both derived-task allocations (`a1`, `a2`) succeed, the dispatch makes
exactly four calls: a subscribe-cancel task carrying `d` to the Communication
processor, a subscribe-cancel task carrying `d2` to the Internal Task processor,
the release of the payload `p` (through the directory for a cancel, freed
directly for a provider-deleted) and the free of the original task. As the six
objects are distinct, the original task, its payload, the resolved record and
the copy are each disposed of exactly once. -/
theorem C4_cancel_delete_success (env : Env) (t : NSTask) (p d d2 a1 a2 : Ptr)
    (hp : t.taskData = some p)
    (hres : (t.taskType = .TASK_CONSUMER_REQ_SUBSCRIBE_CANCEL
              ∧ NSConsumerFindNSProvider env (env.providerId (some p)) = some d)
          ∨ (t.taskType = .TASK_CONSUMER_PROVIDER_DELETED
              ∧ env.NSFindProviderFromAddr (some p) = some d))
    (hcopy : env.NSCopyProvider_internal (some d) = some d2)
    (h1 : env.alloc 0 = some a1) (h2 : env.alloc 1 = some a2) :
    NSConsumerTaskProcessing env (some t)
      = [Effect.NSConsumerCommunicationTaskProcessing
           (some { addr := a1, taskType := .TASK_CONSUMER_REQ_SUBSCRIBE_CANCEL,
                   taskData := some d }),
         Effect.NSConsumerInternalTaskProcessing
           (some { addr := a2, taskType := .TASK_CONSUMER_REQ_SUBSCRIBE_CANCEL,
                   taskData := some d2 }),
         (if t.taskType = .TASK_CONSUMER_REQ_SUBSCRIBE_CANCEL
            then Effect.NSRemoveProvider (some p) else Effect.NSOICFree (some p)),
         Effect.NSOICFree (some t.addr)]
    ∧ ([t.addr, p, d, d2, a1, a2].Nodup →
        disposals t.addr (NSConsumerTaskProcessing env (some t)) = 1
        ∧ disposals p (NSConsumerTaskProcessing env (some t)) = 1
        ∧ disposals d (NSConsumerTaskProcessing env (some t)) = 1
        ∧ disposals d2 (NSConsumerTaskProcessing env (some t)) = 1) := by
  obtain ⟨ta, ty, td⟩ := t
  simp only at hp hres
  subst hp
  have key : NSConsumerTaskProcessing env (some ⟨ta, ty, some p⟩)
      = [Effect.NSConsumerCommunicationTaskProcessing
           (some { addr := a1, taskType := .TASK_CONSUMER_REQ_SUBSCRIBE_CANCEL,
                   taskData := some d }),
         Effect.NSConsumerInternalTaskProcessing
           (some { addr := a2, taskType := .TASK_CONSUMER_REQ_SUBSCRIBE_CANCEL,
                   taskData := some d2 }),
         (if ty = .TASK_CONSUMER_REQ_SUBSCRIBE_CANCEL
            then Effect.NSRemoveProvider (some p) else Effect.NSOICFree (some p)),
         Effect.NSOICFree (some ta)] := by
    rcases hres with ⟨hk, hf⟩ | ⟨hk, hf⟩ <;> subst hk <;>
      simp [NSConsumerTaskProcessing, verifyNotNullV, NSProviderDeletedPostClean, NSMakeTask,
        hf, hcopy, h1, h2]
  refine ⟨key, ?_⟩
  intro hnd
  simp only [key]
  simp only [List.nodup_cons, List.mem_cons, List.mem_singleton, List.not_mem_nil,
    not_or, List.nodup_nil, not_false_eq_true, and_true] at hnd
  obtain ⟨⟨h01, h02, h03, h04, h05⟩, ⟨h12, h13, h14, h15⟩, ⟨h23, h24, h25⟩, ⟨h34, h35⟩, h45⟩ := hnd
  have e1 := Ne.symm h01
  have e2 := Ne.symm h02
  have e3 := Ne.symm h03
  have e4 := Ne.symm h04
  have e5 := Ne.symm h05
  have e6 := Ne.symm h12
  have e7 := Ne.symm h13
  have e8 := Ne.symm h14
  have e9 := Ne.symm h15
  have e10 := Ne.symm h23
  have e11 := Ne.symm h24
  have e12 := Ne.symm h25
  have e13 := Ne.symm h34
  have e14 := Ne.symm h35
  refine ⟨?_, ?_, ?_, ?_⟩ <;> split <;>
    simp [disposals, disposesOf, List.countP_cons, *]

/-- C4 at the subscribe-cancel task at 10 with payload 20: the record 30 goes to
Communication, the copy 31 to Internal Task, the payload is removed and the task
freed. -/
theorem C4_cancel_delete_success_witness :
    cancelTask.taskData = some 20
    ∧ ((cancelTask.taskType = .TASK_CONSUMER_REQ_SUBSCRIBE_CANCEL
          ∧ NSConsumerFindNSProvider hitEnv (hitEnv.providerId (some 20)) = some 30)
        ∨ (cancelTask.taskType = .TASK_CONSUMER_PROVIDER_DELETED
          ∧ hitEnv.NSFindProviderFromAddr (some 20) = some 30))
    ∧ hitEnv.NSCopyProvider_internal (some 30) = some 31
    ∧ hitEnv.alloc 0 = some 40 ∧ hitEnv.alloc 1 = some 41
    ∧ NSConsumerTaskProcessing hitEnv (some cancelTask)
      = [Effect.NSConsumerCommunicationTaskProcessing
           (some { addr := 40, taskType := .TASK_CONSUMER_REQ_SUBSCRIBE_CANCEL,
                   taskData := some 30 }),
         Effect.NSConsumerInternalTaskProcessing
           (some { addr := 41, taskType := .TASK_CONSUMER_REQ_SUBSCRIBE_CANCEL,
                   taskData := some 31 }),
         Effect.NSRemoveProvider (some 20),
         Effect.NSOICFree (some 10)]
    ∧ [cancelTask.addr, 20, 30, 31, 40, 41].Nodup
    ∧ disposals cancelTask.addr (NSConsumerTaskProcessing hitEnv (some cancelTask)) = 1
    ∧ disposals 20 (NSConsumerTaskProcessing hitEnv (some cancelTask)) = 1
    ∧ disposals 30 (NSConsumerTaskProcessing hitEnv (some cancelTask)) = 1
    ∧ disposals 31 (NSConsumerTaskProcessing hitEnv (some cancelTask)) = 1 :=
  ⟨rfl, Or.inl ⟨rfl, rfl⟩, rfl, rfl, rfl,
    (C4_cancel_delete_success hitEnv cancelTask 20 30 31 40 41 rfl (Or.inl ⟨rfl, rfl⟩)
      rfl rfl rfl).1,
    by decide,
    (C4_cancel_delete_success hitEnv cancelTask 20 30 31 40 41 rfl (Or.inl ⟨rfl, rfl⟩)
      rfl rfl rfl).2 (by decide)⟩

/-- C6: for a subscribe-cancel task whose provider id is not in the directory,
or a provider-deleted task whose address does not resolve, the dispatch makes
exactly two calls and no forward: the release of the payload `p` according to
the kind (removed through the directory for a cancel, freed directly for a
provider-deleted), then the free of the task. No other record is released, and
the task is freed exactly once. -/
theorem C6_lookup_miss (env : Env) (t : NSTask) (p : Ptr)
    (hp : t.taskData = some p)
    (hmiss : (t.taskType = .TASK_CONSUMER_REQ_SUBSCRIBE_CANCEL
              ∧ NSConsumerFindNSProvider env (env.providerId (some p)) = none)
          ∨ (t.taskType = .TASK_CONSUMER_PROVIDER_DELETED
              ∧ env.NSFindProviderFromAddr (some p) = none)) :
    NSConsumerTaskProcessing env (some t)
      = [(if t.taskType = .TASK_CONSUMER_REQ_SUBSCRIBE_CANCEL
            then Effect.NSRemoveProvider (some p) else Effect.NSOICFree (some p)),
         Effect.NSOICFree (some t.addr)]
    ∧ forwards (NSConsumerTaskProcessing env (some t)) = []
    ∧ (p ≠ t.addr →
        (NSConsumerTaskProcessing env (some t)).count (Effect.NSOICFree (some t.addr)) = 1
        ∧ disposals t.addr (NSConsumerTaskProcessing env (some t)) = 1
        ∧ disposals p (NSConsumerTaskProcessing env (some t)) = 1) := by
  obtain ⟨ta, ty, td⟩ := t
  simp only at hp hmiss
  subst hp
  have key : NSConsumerTaskProcessing env (some ⟨ta, ty, some p⟩)
      = [(if ty = .TASK_CONSUMER_REQ_SUBSCRIBE_CANCEL
            then Effect.NSRemoveProvider (some p) else Effect.NSOICFree (some p)),
         Effect.NSOICFree (some ta)] := by
    rcases hmiss with ⟨hk, hf⟩ | ⟨hk, hf⟩ <;> subst hk <;>
      simp [NSConsumerTaskProcessing, verifyNotNullV, NSProviderDeletedPostClean, hf]
  refine ⟨key, ?_, ?_⟩
  · simp only [key]
    split <;> simp [forwards, isForward]
  · intro hne
    have hne2 := Ne.symm hne
    simp only [key]
    refine ⟨?_, ?_, ?_⟩ <;> split <;>
      simp [disposals, disposesOf, List.countP_cons, List.count_cons, *]

/-- C6 at the provider-deleted task at 11 with its address record at 21, which
the directory does not resolve. -/
theorem C6_lookup_miss_witness :
    deletedTask.taskData = some 21
    ∧ ((deletedTask.taskType = .TASK_CONSUMER_REQ_SUBSCRIBE_CANCEL
          ∧ NSConsumerFindNSProvider missEnv (missEnv.providerId (some 21)) = none)
        ∨ (deletedTask.taskType = .TASK_CONSUMER_PROVIDER_DELETED
          ∧ missEnv.NSFindProviderFromAddr (some 21) = none))
    ∧ NSConsumerTaskProcessing missEnv (some deletedTask)
      = [Effect.NSOICFree (some 21), Effect.NSOICFree (some 11)]
    ∧ forwards (NSConsumerTaskProcessing missEnv (some deletedTask)) = []
    ∧ 21 ≠ deletedTask.addr
    ∧ (NSConsumerTaskProcessing missEnv (some deletedTask)).count
        (Effect.NSOICFree (some deletedTask.addr)) = 1
    ∧ disposals deletedTask.addr (NSConsumerTaskProcessing missEnv (some deletedTask)) = 1
    ∧ disposals 21 (NSConsumerTaskProcessing missEnv (some deletedTask)) = 1 :=
  ⟨rfl, Or.inr ⟨rfl, rfl⟩,
    (C6_lookup_miss missEnv deletedTask 21 rfl (Or.inr ⟨rfl, rfl⟩)).1,
    (C6_lookup_miss missEnv deletedTask 21 rfl (Or.inr ⟨rfl, rfl⟩)).2.1,
    by decide,
    (C6_lookup_miss missEnv deletedTask 21 rfl (Or.inr ⟨rfl, rfl⟩)).2.2 (by decide)⟩

/-- C1 (the code breaks it): for a subscribe-request task whose provider id is
not found, or whose derived task cannot be allocated, the dispatch returns
without making any call, so the original task and its payload are released
zero times: neither freed, nor removed, nor handed to a downstream processor. -/
theorem C1_subscribe_request_never_released (env : Env) (t : NSTask)
    (hk : t.taskType = .TASK_CONSUMER_REQ_SUBSCRIBE)
    (hfail : NSConsumerFindNSProvider env (env.providerId t.taskData) = none
              ∨ env.alloc 0 = none) :
    NSConsumerTaskProcessing env (some t) = []
    ∧ disposals t.addr (NSConsumerTaskProcessing env (some t)) = 0
    ∧ ∀ p, t.taskData = some p →
        disposals p (NSConsumerTaskProcessing env (some t)) = 0 := by
  obtain ⟨ta, ty, td⟩ := t
  simp only at hk
  subst hk
  have key : NSConsumerTaskProcessing env (some ⟨ta, .TASK_CONSUMER_REQ_SUBSCRIBE, td⟩) = [] := by
    rcases hfail with h | h
    · simp only at h
      simp [NSConsumerTaskProcessing, verifyNotNullV, h]
    · simp only [NSConsumerTaskProcessing, verifyNotNullV, NSMakeTask, h]
      split <;> rfl
  refine ⟨key, ?_, ?_⟩
  · simp [key, disposals]
  · intro p _
    simp [key, disposals]

/-- C1 at the subscribe-request task at 10 with payload 20 and an empty
directory: no call at all, the task and the payload are disposed of zero times. -/
theorem C1_subscribe_request_never_released_witness :
    subscribeTask.taskType = .TASK_CONSUMER_REQ_SUBSCRIBE
    ∧ (NSConsumerFindNSProvider missEnv (missEnv.providerId subscribeTask.taskData) = none
        ∨ missEnv.alloc 0 = none)
    ∧ NSConsumerTaskProcessing missEnv (some subscribeTask) = []
    ∧ disposals 10 (NSConsumerTaskProcessing missEnv (some subscribeTask)) = 0
    ∧ disposals 20 (NSConsumerTaskProcessing missEnv (some subscribeTask)) = 0 :=
  ⟨rfl, Or.inl rfl,
    (C1_subscribe_request_never_released missEnv subscribeTask rfl (Or.inl rfl)).1,
    (C1_subscribe_request_never_released missEnv subscribeTask rfl (Or.inl rfl)).2.1,
    (C1_subscribe_request_never_released missEnv subscribeTask rfl (Or.inl rfl)).2.2 20 rfl⟩

/-- Outside the failing subscribe-request paths, the dispatch of a task of a
routed kind carrying a payload disposes of the task, and of its payload, exactly
once (freed, removed or handed downstream), whatever the lookups, the copy and
the allocations return, provided no external call returns the address of the
task or of its payload. -/
theorem dispatch_disposes_once_elsewhere (env : Env) (t : NSTask) (p : Ptr)
    (hp : t.taskData = some p) (hne : p ≠ t.addr)
    (hrouted : ∀ code, t.taskType ≠ .OTHER code)
    (hmq : t.taskType = .TASK_MQ_REQ_SUBSCRIBE → env.WITH_MQ = true)
    (hsub : t.taskType = .TASK_CONSUMER_REQ_SUBSCRIBE →
      (NSConsumerFindNSProvider env (env.providerId t.taskData)).isSome = true
        ∧ (env.alloc 0).isSome = true)
    (halloc : ∀ k, env.alloc k ≠ some t.addr ∧ env.alloc k ≠ some p)
    (hfind : ∀ id, env.NSProviderCacheFind id ≠ some t.addr
      ∧ env.NSProviderCacheFind id ≠ some p)
    (haddr : ∀ a, env.NSFindProviderFromAddr a ≠ some t.addr
      ∧ env.NSFindProviderFromAddr a ≠ some p)
    (hcopy : ∀ r, env.NSCopyProvider_internal r ≠ some t.addr
      ∧ env.NSCopyProvider_internal r ≠ some p) :
    disposals t.addr (NSConsumerTaskProcessing env (some t)) = 1
    ∧ disposals p (NSConsumerTaskProcessing env (some t)) = 1 := by
  obtain ⟨ta, ty, td⟩ := t
  simp only at hp hne hrouted hmq hsub halloc hfind haddr hcopy
  subst hp
  have hne2 : ta ≠ p := Ne.symm hne
  cases ty
  case OTHER code => exact absurd rfl (hrouted code)
  case TASK_MQ_REQ_SUBSCRIBE =>
    simp [NSConsumerTaskProcessing, verifyNotNullV, hmq, disposals, disposesOf, hne, hne2]
  case TASK_CONSUMER_REQ_SUBSCRIBE =>
    obtain ⟨h1, h2⟩ := hsub rfl
    obtain ⟨d, hd⟩ := Option.isSome_iff_exists.mp h1
    obtain ⟨a, ha⟩ := Option.isSome_iff_exists.mp h2
    have hda : d ≠ ta ∧ d ≠ p := by
      cases hid : env.providerId (some p) with
      | none => simp [NSConsumerFindNSProvider, hid] at hd
      | some id =>
        simp only [NSConsumerFindNSProvider, hid] at hd
        exact ⟨fun h => (hfind id).1 (h ▸ hd), fun h => (hfind id).2 (h ▸ hd)⟩
    have haa : a ≠ ta ∧ a ≠ p :=
      ⟨fun h => (halloc 0).1 (h ▸ ha), fun h => (halloc 0).2 (h ▸ ha)⟩
    simp [NSConsumerTaskProcessing, verifyNotNullV, NSMakeTask, hd, ha, disposals, disposesOf,
      List.countP_cons, hne, hne2, hda, haa]
  case TASK_CONSUMER_PROVIDER_DISCOVERED =>
    cases ha : env.alloc 0 with
    | none =>
      simp [NSConsumerTaskProcessing, verifyNotNullV, ha, disposals, disposesOf,
        List.countP_cons, hne, hne2]
    | some a =>
      have haa : a ≠ ta ∧ a ≠ p :=
        ⟨fun h => (halloc 0).1 (h ▸ ha), fun h => (halloc 0).2 (h ▸ ha)⟩
      have hc := hcopy (some p)
      simp [NSConsumerTaskProcessing, verifyNotNullV, ha, disposals, disposesOf,
        List.countP_cons, hne, hne2, haa, hc]
  case TASK_CONSUMER_REQ_SUBSCRIBE_CANCEL =>
    cases hd : NSConsumerFindNSProvider env (env.providerId (some p)) with
    | none =>
      simp [NSConsumerTaskProcessing, verifyNotNullV, NSProviderDeletedPostClean, hd, disposals,
        disposesOf, List.countP_cons, hne, hne2]
    | some d =>
      have hda : d ≠ ta ∧ d ≠ p := by
        cases hid : env.providerId (some p) with
        | none => simp [NSConsumerFindNSProvider, hid] at hd
        | some id =>
          simp only [NSConsumerFindNSProvider, hid] at hd
          exact ⟨fun h => (hfind id).1 (h ▸ hd), fun h => (hfind id).2 (h ▸ hd)⟩
      cases hc : env.NSCopyProvider_internal (some d) with
      | none =>
        simp [NSConsumerTaskProcessing, verifyNotNullV, NSProviderDeletedPostClean, hd, hc,
          disposals, disposesOf, List.countP_cons, hne, hne2, hda]
      | some d2 =>
        have hd2 : d2 ≠ ta ∧ d2 ≠ p :=
          ⟨fun h => (hcopy (some d)).1 (h ▸ hc), fun h => (hcopy (some d)).2 (h ▸ hc)⟩
        cases h0 : env.alloc 0 with
        | none =>
          simp [NSConsumerTaskProcessing, verifyNotNullV, NSProviderDeletedPostClean, NSMakeTask,
            hd, hc, h0, disposals, disposesOf, List.countP_cons, hne, hne2, hda, hd2]
        | some a1 =>
          have ha1 : a1 ≠ ta ∧ a1 ≠ p :=
            ⟨fun h => (halloc 0).1 (h ▸ h0), fun h => (halloc 0).2 (h ▸ h0)⟩
          cases h1 : env.alloc 1 with
          | none =>
            simp [NSConsumerTaskProcessing, verifyNotNullV, NSProviderDeletedPostClean,
              NSMakeTask, hd, hc, h0, h1, disposals, disposesOf, List.countP_cons, hne, hne2,
              hda, hd2, ha1]
          | some a2 =>
            have ha2 : a2 ≠ ta ∧ a2 ≠ p :=
              ⟨fun h => (halloc 1).1 (h ▸ h1), fun h => (halloc 1).2 (h ▸ h1)⟩
            simp [NSConsumerTaskProcessing, verifyNotNullV, NSProviderDeletedPostClean,
              NSMakeTask, hd, hc, h0, h1, disposals, disposesOf, List.countP_cons, hne, hne2,
              hda, hd2, ha1, ha2]
  case TASK_CONSUMER_PROVIDER_DELETED =>
    cases hd : env.NSFindProviderFromAddr (some p) with
    | none =>
      simp [NSConsumerTaskProcessing, verifyNotNullV, NSProviderDeletedPostClean, hd, disposals,
        disposesOf, List.countP_cons, hne, hne2]
    | some d =>
      have hda : d ≠ ta ∧ d ≠ p :=
        ⟨fun h => (haddr (some p)).1 (h ▸ hd), fun h => (haddr (some p)).2 (h ▸ hd)⟩
      cases hc : env.NSCopyProvider_internal (some d) with
      | none =>
        simp [NSConsumerTaskProcessing, verifyNotNullV, NSProviderDeletedPostClean, hd, hc,
          disposals, disposesOf, List.countP_cons, hne, hne2, hda]
      | some d2 =>
        have hd2 : d2 ≠ ta ∧ d2 ≠ p :=
          ⟨fun h => (hcopy (some d)).1 (h ▸ hc), fun h => (hcopy (some d)).2 (h ▸ hc)⟩
        cases h0 : env.alloc 0 with
        | none =>
          simp [NSConsumerTaskProcessing, verifyNotNullV, NSProviderDeletedPostClean, NSMakeTask,
            hd, hc, h0, disposals, disposesOf, List.countP_cons, hne, hne2, hda, hd2]
        | some a1 =>
          have ha1 : a1 ≠ ta ∧ a1 ≠ p :=
            ⟨fun h => (halloc 0).1 (h ▸ h0), fun h => (halloc 0).2 (h ▸ h0)⟩
          cases h1 : env.alloc 1 with
          | none =>
            simp [NSConsumerTaskProcessing, verifyNotNullV, NSProviderDeletedPostClean,
              NSMakeTask, hd, hc, h0, h1, disposals, disposesOf, List.countP_cons, hne, hne2,
              hda, hd2, ha1]
          | some a2 =>
            have ha2 : a2 ≠ ta ∧ a2 ≠ p :=
              ⟨fun h => (halloc 1).1 (h ▸ h1), fun h => (halloc 1).2 (h ▸ h1)⟩
            simp [NSConsumerTaskProcessing, verifyNotNullV, NSProviderDeletedPostClean,
              NSMakeTask, hd, hc, h0, h1, disposals, disposesOf, List.countP_cons, hne, hne2,
              hda, hd2, ha1, ha2]
  all_goals
    simp [NSConsumerTaskProcessing, verifyNotNullV, disposals, disposesOf, hne, hne2]

/-- C9 (the code breaks it): in the subscribe-cancel / provider-deleted path,
when the provider resolves to `d`, the copy `d2` and the first derived task
succeed and the second derived task cannot be allocated, the dispatch still
calls the Internal Task processor (with `NULL`), runs the final cleanup on the
original task only, and never releases the copy `d2`. -/
theorem C9_second_derived_task_failure (env : Env) (t : NSTask) (p d d2 a1 : Ptr)
    (hp : t.taskData = some p)
    (hres : (t.taskType = .TASK_CONSUMER_REQ_SUBSCRIBE_CANCEL
              ∧ NSConsumerFindNSProvider env (env.providerId (some p)) = some d)
          ∨ (t.taskType = .TASK_CONSUMER_PROVIDER_DELETED
              ∧ env.NSFindProviderFromAddr (some p) = some d))
    (hcopy : env.NSCopyProvider_internal (some d) = some d2)
    (h1 : env.alloc 0 = some a1) (h2 : env.alloc 1 = none) :
    NSConsumerTaskProcessing env (some t)
      = [Effect.NSConsumerCommunicationTaskProcessing
           (some { addr := a1, taskType := .TASK_CONSUMER_REQ_SUBSCRIBE_CANCEL,
                   taskData := some d }),
         Effect.NSConsumerInternalTaskProcessing none,
         (if t.taskType = .TASK_CONSUMER_REQ_SUBSCRIBE_CANCEL
            then Effect.NSRemoveProvider (some p) else Effect.NSOICFree (some p)),
         Effect.NSOICFree (some t.addr)]
    ∧ Effect.NSRemoveProvider_internal (some d2) ∉ NSConsumerTaskProcessing env (some t) := by
  obtain ⟨ta, ty, td⟩ := t
  simp only at hp hres
  subst hp
  have key : NSConsumerTaskProcessing env (some ⟨ta, ty, some p⟩)
      = [Effect.NSConsumerCommunicationTaskProcessing
           (some { addr := a1, taskType := .TASK_CONSUMER_REQ_SUBSCRIBE_CANCEL,
                   taskData := some d }),
         Effect.NSConsumerInternalTaskProcessing none,
         (if ty = .TASK_CONSUMER_REQ_SUBSCRIBE_CANCEL
            then Effect.NSRemoveProvider (some p) else Effect.NSOICFree (some p)),
         Effect.NSOICFree (some ta)] := by
    rcases hres with ⟨hk, hf⟩ | ⟨hk, hf⟩ <;> subst hk <;>
      simp [NSConsumerTaskProcessing, verifyNotNullV, NSProviderDeletedPostClean, NSMakeTask,
        hf, hcopy, h1, h2]
  refine ⟨key, ?_⟩
  simp only [key]
  split <;> simp

/-- C9 at the subscribe-cancel task at 10 when only the first allocation
succeeds: the Internal Task processor is called with `NULL` and the copy 31 is
not released. -/
theorem C9_second_derived_task_failure_witness :
    cancelTask.taskData = some 20
    ∧ ((cancelTask.taskType = .TASK_CONSUMER_REQ_SUBSCRIBE_CANCEL
          ∧ NSConsumerFindNSProvider secondAllocFailsEnv
              (secondAllocFailsEnv.providerId (some 20)) = some 30)
        ∨ (cancelTask.taskType = .TASK_CONSUMER_PROVIDER_DELETED
          ∧ secondAllocFailsEnv.NSFindProviderFromAddr (some 20) = some 30))
    ∧ secondAllocFailsEnv.NSCopyProvider_internal (some 30) = some 31
    ∧ secondAllocFailsEnv.alloc 0 = some 40 ∧ secondAllocFailsEnv.alloc 1 = none
    ∧ NSConsumerTaskProcessing secondAllocFailsEnv (some cancelTask)
      = [Effect.NSConsumerCommunicationTaskProcessing
           (some { addr := 40, taskType := .TASK_CONSUMER_REQ_SUBSCRIBE_CANCEL,
                   taskData := some 30 }),
         Effect.NSConsumerInternalTaskProcessing none,
         Effect.NSRemoveProvider (some 20),
         Effect.NSOICFree (some 10)]
    ∧ Effect.NSRemoveProvider_internal (some 31)
        ∉ NSConsumerTaskProcessing secondAllocFailsEnv (some cancelTask) :=
  ⟨rfl, Or.inl ⟨rfl, rfl⟩, rfl, rfl, rfl,
    (C9_second_derived_task_failure secondAllocFailsEnv cancelTask 20 30 31 40 rfl
      (Or.inl ⟨rfl, rfl⟩) rfl rfl rfl).1,
    (C9_second_derived_task_failure secondAllocFailsEnv cancelTask 20 30 31 40 rfl
      (Or.inl ⟨rfl, rfl⟩) rfl rfl rfl).2⟩

/-! ### Start, ingestion -/

/-- C3 (the code breaks it): when every sub-initialisation up to the queue
creation succeeds and the worker cannot be spawned, the start returns failure
with the new queue installed in `g_queue`; the global lock is released. -/
theorem C3_init_failure_installs_queue (env : Env) (s : State) (uuid : String)
    (queue : NSConsumerQueue)
    (hid : env.OCGetServerInstanceIDString = some uuid)
    (hlistener : env.NSConsumerListenerInit = .NS_OK)
    (hsystem : env.NSConsumerSystemInit = .NS_OK)
    (hqueue : env.NSCreateQueue = some queue)
    (hspawn : env.NSThreadInit .NSConsumerMsgHandleThreadFunc = none) :
    NSConsumerMessageHandlerInit env s
      = (.NS_ERROR, { s with g_queue := some queue },
          [.pthread_mutex_lock, .NSSetConsumerId uuid, .pthread_mutex_unlock]) := by
  simp [NSConsumerMessageHandlerInit, hid, hlistener, hsystem, hqueue, hspawn]

/-- C3 from the state without queue and worker: the failed start leaves a queue
installed, so the state has changed. -/
theorem C3_init_failure_installs_queue_witness :
    missEnv.OCGetServerInstanceIDString = some "uuid"
    ∧ missEnv.NSConsumerListenerInit = .NS_OK
    ∧ missEnv.NSConsumerSystemInit = .NS_OK
    ∧ missEnv.NSCreateQueue = some { addr := 100, objs := [] }
    ∧ missEnv.NSThreadInit .NSConsumerMsgHandleThreadFunc = none
    ∧ NSConsumerMessageHandlerInit missEnv stoppedState
      = (.NS_ERROR, { g_handle := none, g_queue := some { addr := 100, objs := [] } },
          [.pthread_mutex_lock, .NSSetConsumerId "uuid", .pthread_mutex_unlock]) :=
  ⟨rfl, rfl, rfl, rfl, rfl,
    C3_init_failure_installs_queue missEnv stoppedState "uuid" { addr := 100, objs := [] }
      rfl rfl rfl rfl rfl⟩

/-- Whatever the sub-initialisations answer, the start returns with the global
lock released and the worker handle untouched unless it succeeds; on success
both the queue and the worker handle are installed; and a failed start changes
the state only when the queue was created and the worker could not be spawned. -/
theorem init_outcomes (env : Env) (s : State) :
    startMutexHeld false (NSConsumerMessageHandlerInit env s).2.2 = false
    ∧ ((NSConsumerMessageHandlerInit env s).1 = .NS_OK →
        ∃ queue handle, env.NSCreateQueue = some queue
          ∧ env.NSThreadInit .NSConsumerMsgHandleThreadFunc = some handle
          ∧ (NSConsumerMessageHandlerInit env s).2.1
              = { g_handle := some handle, g_queue := some queue })
    ∧ ((NSConsumerMessageHandlerInit env s).1 ≠ .NS_OK →
        (NSConsumerMessageHandlerInit env s).1 = .NS_ERROR
        ∧ (NSConsumerMessageHandlerInit env s).2.1.g_handle = s.g_handle
        ∧ ((NSConsumerMessageHandlerInit env s).2.1 ≠ s →
            (env.NSCreateQueue).isSome = true
            ∧ env.NSThreadInit .NSConsumerMsgHandleThreadFunc = none)) := by
  unfold NSConsumerMessageHandlerInit
  cases env.OCGetServerInstanceIDString with
  | none => simp [startMutexHeld]
  | some uuid =>
    by_cases hl : env.NSConsumerListenerInit = .NS_OK
    · by_cases hs : env.NSConsumerSystemInit = .NS_OK
      · cases hq : env.NSCreateQueue with
        | none => simp [startMutexHeld, hl, hs]
        | some queue =>
          cases hth : env.NSThreadInit .NSConsumerMsgHandleThreadFunc with
          | none => simp [startMutexHeld, hl, hs]
          | some handle => simp [startMutexHeld, hl, hs]
      · simp [startMutexHeld, hl, hs]
    · simp [startMutexHeld, hl]

/-- C7: when the scheduler has no worker handle, the body of the ingestion helper
takes the global lock, frees the task once and releases the lock: nothing is
enqueued and the state is unchanged. And the ingestion entry point returns
success whenever the helper could be spawned, whatever the state and the task. -/
theorem C7_push_without_worker (env : Env) (s : State) (t : NSTask)
    (hnone : s.g_handle = none) :
    NSConsumerMsgPushThreadFunc env s (some t)
      = (s, [.pthread_mutex_lock, .NSOICFree (some t.addr), .pthread_mutex_unlock])
    ∧ (NSConsumerMsgPushThreadFunc env s (some t)).2.count (.NSOICFree (some t.addr)) = 1
    ∧ startMutexHeld false (NSConsumerMsgPushThreadFunc env s (some t)).2 = false
    ∧ (∀ (s1 : State) (task : Option NSTask) (thread : NSConsumerThread),
        env.NSThreadInit .NSConsumerMsgPushThreadFunc = some thread →
        (NSConsumerPushEvent env s1 task).1 = .NS_OK) := by
  have key : NSConsumerMsgPushThreadFunc env s (some t)
      = (s, [.pthread_mutex_lock, .NSOICFree (some t.addr), .pthread_mutex_unlock]) := by
    simp [NSConsumerMsgPushThreadFunc, hnone]
  refine ⟨key, ?_, ?_, ?_⟩
  · simp [key, List.count_cons]
  · simp [key, startMutexHeld]
  · intro s1 task thread hth
    simp [NSConsumerPushEvent, hth]

/-- C7 at the stopped state: the receive-message task at 13 is freed, not queued,
and the entry point still reports success. -/
theorem C7_push_without_worker_witness :
    stoppedState.g_handle = none
    ∧ NSConsumerMsgPushThreadFunc hitEnv stoppedState (some messageTask)
      = (stoppedState, [.pthread_mutex_lock, .NSOICFree (some 13), .pthread_mutex_unlock])
    ∧ hitEnv.NSThreadInit .NSConsumerMsgPushThreadFunc = some runningHandle
    ∧ (NSConsumerPushEvent hitEnv stoppedState (some messageTask)).1 = .NS_OK :=
  ⟨rfl, (C7_push_without_worker hitEnv stoppedState messageTask rfl).1, rfl,
    (C7_push_without_worker hitEnv stoppedState messageTask rfl).2.2.2
      stoppedState (some messageTask) runningHandle rfl⟩

/-! ### Worker loop and stop -/

/-- The drain loop, given more fuel than queued nodes, empties the queue and
invokes the dispatch on the data of every node, oldest first. -/
theorem drainLoop_spec (envs : Nat → Env) (a : Ptr) :
    ∀ (objs : List NSConsumerQueueObject) (fuel k : Nat), objs.length < fuel →
      ∃ tr, drainLoop envs fuel k { addr := a, objs := objs }
              = some ({ addr := a, objs := [] }, tr)
        ∧ dispatched tr = objs.map NSConsumerQueueObject.data
        ∧ (∀ b, startMutexHeld b tr = b) ∧ (∀ b, threadLockHeld b tr = b) := by
  intro objs
  induction objs with
  | nil =>
    intro fuel k hfuel
    cases fuel with
    | zero => simp at hfuel
    | succ n =>
      exact ⟨[], by simp [drainLoop, NSIsQueueEmpty], by simp [dispatched],
        by simp [startMutexHeld], by simp [threadLockHeld]⟩
  | cons obj rest ih =>
    intro fuel k hfuel
    cases fuel with
    | zero => simp at hfuel
    | succ n =>
      have hn : rest.length < n := by simpa using hfuel
      obtain ⟨tr, htr, hd, hm, ht⟩ := ih n (k + 1) hn
      obtain ⟨q1, q2, q3⟩ :=
        quiet_of_forward_or_release _ (dispatch_forward_or_release (envs k) obj.data)
      refine ⟨[Effect.NSConsumerTaskProcessing obj.data]
                ++ NSConsumerTaskProcessing (envs k) obj.data
                ++ [Effect.NSOICFree (some obj.addr)] ++ tr, ?_, ?_, ?_, ?_⟩
      · simp [drainLoop, NSIsQueueEmpty, NSPopQueue, htr]
      · simp only [dispatched_append, q1, hd]
        simp [dispatched]
      · intro b
        simp only [startMutexHeld_append, q2, hm]
        simp [startMutexHeld]
      · intro b
        simp only [threadLockHeld_append, q3, ht]
        simp [threadLockHeld]

/-- C2: from a state with a worker handle and a queue holding the tasks
`T1..Tn`, with more fuel than tasks, the stop returns; it has invoked the
dispatch on exactly `T1..Tn`, each once and in queue order; the emptied queue is
destroyed and freed, the worker is stopped, both `g_queue` and `g_handle` are
`NULL` on return, and both locks are released. -/
theorem C2_exit_drains_in_order (envs : Nat → Env) (fuel : Nat) (s : State)
    (h : NSConsumerThread) (q : NSConsumerQueue) (tasks : List NSTask)
    (hh : s.g_handle = some h) (hq : s.g_queue = some q)
    (htasks : q.objs.map NSConsumerQueueObject.data = tasks.map some)
    (hfuel : tasks.length < fuel) :
    ∃ tr, NSConsumerMessageHandlerExit envs fuel s
            = some ({ g_handle := none, g_queue := none }, tr)
      ∧ dispatched tr = tasks.map some
      ∧ Effect.NSDestroyQueue (some { q with objs := [] }) ∈ tr
      ∧ Effect.NSThreadStop (some h) ∈ tr
      ∧ startMutexHeld false tr = false ∧ threadLockHeld false tr = false := by
  obtain ⟨qa, objs⟩ := q
  have hlen : objs.length < fuel := by
    have := congrArg List.length htasks
    simp at this
    omega
  obtain ⟨tr, htr, hd, hm, ht⟩ := drainLoop_spec envs qa objs fuel 0 hlen
  refine ⟨[.pthread_mutex_lock, .NSConsumerListenerTermiate, .NSCancelAllSubscription,
            .NSThreadLock s.g_handle]
          ++ tr
          ++ [.NSDestroyQueue (some { addr := qa, objs := [] }), .NSOICFree (some qa),
              .NSThreadUnlock s.g_handle, .NSThreadStop s.g_handle,
              .NSOICFree (s.g_handle.map NSConsumerThread.addr),
              .NSDestroyInternalCachedList, .pthread_mutex_unlock], ?_, ?_, ?_, ?_, ?_, ?_⟩
  · simp only [NSConsumerMessageHandlerExit, hq, htr, Option.map_some']
  · simp only [dispatched_append, hd, hh]
    simpa [dispatched] using htasks
  · simp
  · simp [hh]
  · simp only [startMutexHeld_append, hm]
    simp [startMutexHeld]
  · simp only [threadLockHeld_append, ht]
    simp [threadLockHeld]

/-- C2 at the started state holding the receive-message task then the
subscribe-cancel task: both are dispatched, in that order, and the state is
cleared. -/
theorem C2_exit_drains_in_order_witness :
    startedState.g_handle = some runningHandle
    ∧ startedState.g_queue = some twoTaskQueue
    ∧ twoTaskQueue.objs.map NSConsumerQueueObject.data
        = [messageTask, cancelTask].map some
    ∧ [messageTask, cancelTask].length < 3
    ∧ ∃ tr, NSConsumerMessageHandlerExit (fun _ => missEnv) 3 startedState
              = some ({ g_handle := none, g_queue := none }, tr)
        ∧ dispatched tr = [messageTask, cancelTask].map some
        ∧ Effect.NSDestroyQueue (some { twoTaskQueue with objs := [] }) ∈ tr
        ∧ Effect.NSThreadStop (some runningHandle) ∈ tr
        ∧ startMutexHeld false tr = false ∧ threadLockHeld false tr = false :=
  ⟨rfl, rfl, rfl, by decide,
    C2_exit_drains_in_order (fun _ => missEnv) 3 startedState runningHandle twoTaskQueue
      [messageTask, cancelTask] rfl rfl rfl (by decide)⟩

/-- C10: one iteration of the worker loop invokes the dispatch at most once and
leaves both locks released. With a worker and a non-empty queue it pops the
head, dispatches its task and keeps the rest of the queue in order, whether or
not the worker was told to stop. It leaves the loop exactly when there is no
worker handle, or the worker was told to stop and the queue is empty. In every
other case (no queue, or an empty queue while running) it dispatches nothing,
leaves the state as it is and goes round again. -/
theorem C10_worker_iteration (env : Env) (s : State) :
    ((dispatched (workerIteration env s).2.2).length ≤ 1
      ∧ startMutexHeld false (workerIteration env s).2.2 = false
      ∧ threadLockHeld false (workerIteration env s).2.2 = false)
    ∧ (∀ (h : NSConsumerThread) (q : NSConsumerQueue) (obj : NSConsumerQueueObject)
        (rest : List NSConsumerQueueObject),
        s.g_handle = some h → s.g_queue = some q → q.objs = obj :: rest →
        workerIteration env s
          = (.again, { s with g_queue := some { q with objs := rest } },
              [.pthread_mutex_lock, .NSThreadLock (some h),
               .NSConsumerTaskProcessing obj.data]
              ++ NSConsumerTaskProcessing env obj.data
              ++ [.NSOICFree (some obj.addr), .NSThreadUnlock (some h),
                  .pthread_mutex_unlock])
        ∧ dispatched (workerIteration env s).2.2 = [obj.data])
    ∧ ((workerIteration env s).1 = .leave ↔
        (s.g_handle = none
          ∨ ∃ h q, s.g_handle = some h ∧ s.g_queue = some q
              ∧ h.isStarted = false ∧ q.objs = []))
    ∧ (∀ (h : NSConsumerThread), s.g_handle = some h →
        (s.g_queue = none
          ∨ ∃ q, s.g_queue = some q ∧ q.objs = [] ∧ h.isStarted = true) →
        (workerIteration env s).1 = .again
        ∧ (workerIteration env s).2.1 = s
        ∧ dispatched (workerIteration env s).2.2 = []) := by
  obtain ⟨gh, gq⟩ := s
  cases gh with
  | none =>
    simp [workerIteration, dispatched, startMutexHeld, threadLockHeld]
  | some h =>
    obtain ⟨ha, started⟩ := h
    cases gq with
    | none =>
      simp [workerIteration, dispatched, startMutexHeld, threadLockHeld]
    | some q =>
      obtain ⟨qa, objs⟩ := q
      cases objs with
      | nil =>
        cases started <;>
          simp [workerIteration, NSIsQueueEmpty, dispatched, startMutexHeld, threadLockHeld] <;>
          (intro h q obj rest _ hq; subst hq; simp)
      | cons obj rest =>
        obtain ⟨q1, q2, q3⟩ :=
          quiet_of_forward_or_release _ (dispatch_forward_or_release env obj.data)
        have hrun : workerIteration env
              { g_handle := some { addr := ha, isStarted := started },
                g_queue := some { addr := qa, objs := obj :: rest } }
            = (.again,
                { g_handle := some { addr := ha, isStarted := started },
                  g_queue := some { addr := qa, objs := rest } },
                [.pthread_mutex_lock,
                 .NSThreadLock (some { addr := ha, isStarted := started }),
                 .NSConsumerTaskProcessing obj.data]
                ++ NSConsumerTaskProcessing env obj.data
                ++ [.NSOICFree (some obj.addr),
                    .NSThreadUnlock (some { addr := ha, isStarted := started }),
                    .pthread_mutex_unlock]) := by
          simp [workerIteration, NSIsQueueEmpty, NSPopQueue]
        have hdisp : dispatched
              ([Effect.pthread_mutex_lock,
                 .NSThreadLock (some { addr := ha, isStarted := started }),
                 .NSConsumerTaskProcessing obj.data]
                ++ NSConsumerTaskProcessing env obj.data
                ++ [.NSOICFree (some obj.addr),
                    .NSThreadUnlock (some { addr := ha, isStarted := started }),
                    .pthread_mutex_unlock]) = [obj.data] := by
          simp only [dispatched_append, q1]
          simp [dispatched]
        refine ⟨⟨?_, ?_, ?_⟩, ?_, ?_, ?_⟩
        · simp only [hrun, hdisp]
          simp
        · simp only [hrun, startMutexHeld_append, q2]
          simp [startMutexHeld]
        · simp only [hrun, threadLockHeld_append, q3]
          simp [threadLockHeld]
        · intro h q o r hh hq ho
          simp only [Option.some.injEq] at hh hq
          subst hh hq
          simp only [List.cons.injEq] at ho
          obtain ⟨ho1, ho2⟩ := ho
          subst ho1 ho2
          exact ⟨hrun, by simp only [hrun, hdisp]⟩
        · simp [hrun]
        · intro h hh hcase
          simp at hcase

/-- C10 at the started state: the head (the receive-message task) is popped and
dispatched, the subscribe-cancel task stays queued. -/
theorem C10_worker_iteration_witness :
    startedState.g_handle = some runningHandle
    ∧ startedState.g_queue = some twoTaskQueue
    ∧ twoTaskQueue.objs
        = { addr := 50, data := some messageTask } :: [{ addr := 51, data := some cancelTask }]
    ∧ workerIteration missEnv startedState
        = (.again,
            { g_handle := some runningHandle,
              g_queue := some { addr := 100, objs := [{ addr := 51, data := some cancelTask }] } },
            [.pthread_mutex_lock, .NSThreadLock (some runningHandle),
             .NSConsumerTaskProcessing (some messageTask),
             .NSConsumerInternalTaskProcessing (some messageTask),
             .NSOICFree (some 50), .NSThreadUnlock (some runningHandle),
             .pthread_mutex_unlock]) :=
  ⟨rfl, rfl, rfl,
    ((C10_worker_iteration missEnv startedState).2.1 runningHandle twoTaskQueue
      { addr := 50, data := some messageTask } [{ addr := 51, data := some cancelTask }]
      rfl rfl rfl).1⟩

end NSConsumerScheduler
